import Mathlib

/-!
Verification of the pymodbus HVAC sample (server `modbusserver_sample.py`,
client `modbusclient_sample.py`).

The server keeps, per Modbus unit, a 16-entry holding-register block
(5 temperatures, 5 high thresholds, 5 good thresholds, 1 dummy register),
a 5-entry coil block and a 5-entry discrete-input block.  Two periodic
threads mutate this state: `update_temperature_and_coils_thread` (one tick
per unit modelled by `update_temperature_and_coils_tick`) and
`update_discrete_inputs_thread` (modelled by `update_discrete_inputs_tick`).
The Flask client aggregates reads (`get_data`) and issues validated writes
(`set_temp_threshold`), with the transport outcome of each single-register
write modelled by a Boolean oracle.
-/

namespace PymodbusTest

/-- `ModbusSequentialDataBlock.getValues` for a block based at address 0:
the slice `values[address : address + count]`. -/
def getValues {α : Type} (block : List α) (address count : Nat) : List α :=
  (block.drop address).take count

/-- `ModbusSequentialDataBlock.setValues` for a block based at address 0:
slice assignment `values[address : address + len(vals)] = vals`
(all uses in the sources stay inside the block's bounds). -/
def setValuesBlock {α : Type} (block : List α) (address : Nat) (vals : List α) : List α :=
  block.take address ++ vals ++ block.drop (address + vals.length)

/-- `NUM_AC_UNITS = 5` in `modbusserver_sample.py`. -/
def NUM_AC_UNITS : Nat := 5

/-- `INITIAL_TEMPS = [15] * NUM_AC_UNITS`. -/
def INITIAL_TEMPS : List Int := List.replicate NUM_AC_UNITS 15

/-- `INITIAL_HIGH_THRESHOLDS = [27] * NUM_AC_UNITS`. -/
def INITIAL_HIGH_THRESHOLDS : List Int := List.replicate NUM_AC_UNITS 27

/-- `INITIAL_GOOD_THRESHOLDS = [20] * NUM_AC_UNITS`. -/
def INITIAL_GOOD_THRESHOLDS : List Int := List.replicate NUM_AC_UNITS 20

/-- `LAST_DUMMY_VALUE = [0xFE]`. -/
def LAST_DUMMY_VALUE : List Int := [0xFE]

/-- `db1_hr_initial_values = INITIAL_TEMPS + INITIAL_HIGH_THRESHOLDS +
INITIAL_GOOD_THRESHOLDS + LAST_DUMMY_VALUE` (16 registers). -/
def db1_hr_initial_values : List Int :=
  INITIAL_TEMPS ++ INITIAL_HIGH_THRESHOLDS ++ INITIAL_GOOD_THRESHOLDS ++ LAST_DUMMY_VALUE

/-- One Modbus unit's datastore: holding registers, coils, discrete inputs
(`db1_hr`/`db1_co`/`db1_di` and `db2_hr`/`db2_co`/`db2_di`). -/
structure UnitState where
  hr : List Int
  co : List Bool
  di : List Bool

/-- The unit state as initialised at server start. -/
def initState : UnitState :=
  { hr := db1_hr_initial_values
    co := List.replicate NUM_AC_UNITS false
    di := List.replicate NUM_AC_UNITS false }

/-- `hr_all_vals[0:NUM_AC_UNITS]`: the temperature block of a holding-register
snapshot. -/
def server_temps (hr : List Int) : List Int :=
  hr.take NUM_AC_UNITS

/-- `hr_all_vals[NUM_AC_UNITS : NUM_AC_UNITS*2]`: the high-threshold block. -/
def server_high_thresholds (hr : List Int) : List Int :=
  (hr.drop NUM_AC_UNITS).take NUM_AC_UNITS

/-- `hr_all_vals[NUM_AC_UNITS*2 : NUM_AC_UNITS*3]`: the good-threshold block. -/
def server_good_thresholds (hr : List Int) : List Int :=
  (hr.drop (NUM_AC_UNITS * 2)).take NUM_AC_UNITS

/-- The three-way hysteresis rule of the control loop body for one AC index:
`if temp > high: coil = True elif temp < good: coil = False` (else keep). -/
def hysteresisCoil (t h g : Int) (c : Bool) : Bool :=
  if t > h then true else if t < g then false else c

/-- The control loop `for i in range(NUM_AC_UNITS)` that rewrites a copy of the
current coil list through `hysteresisCoil`, index by index. -/
def newCoilStatuses : List Int → List Int → List Int → List Bool → List Bool
  | t :: ts, h :: hs, g :: gs, c :: cs =>
      hysteresisCoil t h g c :: newCoilStatuses ts hs gs cs
  | _, _, _, _ => []

/-- `new_coil_statuses` computed by one tick from a holding-register snapshot
and the current coils. -/
def new_coil_statuses_of (hr : List Int) (co : List Bool) : List Bool :=
  newCoilStatuses (server_temps hr) (server_high_thresholds hr) (server_good_thresholds hr) co

/-- The temperature-simulation rule for one AC index: if the coil is on,
decrement while above the floor 7; otherwise increment while below the
ceiling 30. -/
def simTemp (c : Bool) (t : Int) : Int :=
  if c then (if t > 7 then t - 1 else t) else (if t < 30 then t + 1 else t)

/-- `simulated_temperatures`: the simulation loop applied to the temperature
block using the freshly committed coil statuses. -/
def simulated_temperatures_of (hr : List Int) (nc : List Bool) : List Int :=
  List.zipWith simTemp nc (server_temps hr)

/-- One iteration of the body of `update_temperature_and_coils_thread` for one
unit: read all 16 holding registers (skipping the update when the read is
short), compute the new coil statuses by hysteresis, commit them, simulate
temperatures from the committed coils, and write back
`simulated_temperatures + high_temp_thresholds + good_temp_thresholds +
[dummy_value]`. -/
def update_temperature_and_coils_tick (s : UnitState) : UnitState :=
  let hr_all_vals := getValues s.hr 0 16
  if hr_all_vals.length = 16 then
    let nc := new_coil_statuses_of hr_all_vals (getValues s.co 0 NUM_AC_UNITS)
    let sim := simulated_temperatures_of hr_all_vals nc
    let updated_hr_values :=
      sim ++ server_high_thresholds hr_all_vals ++ server_good_thresholds hr_all_vals
        ++ [hr_all_vals.getD (NUM_AC_UNITS * 3) 0]
    { hr := setValuesBlock s.hr 0 updated_hr_values
      co := setValuesBlock s.co 0 nc
      di := s.di }
  else s

/-- One iteration of the body of `update_discrete_inputs_thread` for one unit:
read the `NUM_AC_UNITS` coil values and write them into the discrete inputs. -/
def update_discrete_inputs_tick (s : UnitState) : UnitState :=
  let coil_vals := getValues s.co 0 NUM_AC_UNITS
  { s with di := setValuesBlock s.di 0 coil_vals }

/-- `n` consecutive ticks of the temperature/coil loop on one unit. -/
def tickN : Nat → UnitState → UnitState
  | 0, s => s
  | n + 1, s => tickN n (update_temperature_and_coils_tick s)

/-- A unit state whose temperatures all sit at the extreme boundary value 30,
with the stock thresholds; used to exercise the clamp property. -/
def extremeState : UnitState :=
  { hr := List.replicate NUM_AC_UNITS 30 ++ INITIAL_HIGH_THRESHOLDS
      ++ INITIAL_GOOD_THRESHOLDS ++ LAST_DUMMY_VALUE
    co := List.replicate NUM_AC_UNITS false
    di := List.replicate NUM_AC_UNITS false }

/-! Section: Client (`modbusclient_sample.py`) -/

/-- `NUM_AC_UNITS_CLIENT = 5`: the number of AC units the client interacts
with. -/
def NUM_AC_UNITS_CLIENT : Nat := 5

/-- Coil address used by `/api/write_coil`: the request's `address` parameter
is the zero-based AC index itself. -/
def addr_coil (ac_index : Nat) : Nat := ac_index

/-- `addr_high_T = NUM_AC_UNITS_CLIENT + ac_index` in `set_temp_threshold`. -/
def addr_high_T (ac_index : Nat) : Nat := NUM_AC_UNITS_CLIENT + ac_index

/-- `addr_good_T = NUM_AC_UNITS_CLIENT*2 + ac_index` in `set_temp_threshold`. -/
def addr_good_T (ac_index : Nat) : Nat := NUM_AC_UNITS_CLIENT * 2 + ac_index

/-- `write_single_holding_register`, with the transport outcome supplied by
the Boolean oracle `ok`: a successful write sets the addressed register on the
device and returns `(device', True)`; a failed write (Modbus error response or
communication exception) leaves the device unchanged and returns
`(device, False)`. -/
def write_single_holding_register (regs : List Int) (address : Nat) (value : Int)
    (ok : Bool) : List Int × Bool :=
  if ok then (regs.set address value, true) else (regs, false)

/-- Possible outcomes of the `/api/write_temp_threshold` handler: the two
local-validation rejections (HTTP 400), the two write-failure responses
(HTTP 500), and success. -/
inductive ThresholdOutcome
  | badIndex
  | badTemps
  | highWriteFailed
  | goodWriteFailed
  | ok
  deriving DecidableEq

/-- Observable result of one `set_temp_threshold` run: the reported outcome,
the register writes attempted on the network (address, value) in order, and
the device registers afterwards. -/
structure ThresholdRun where
  outcome : ThresholdOutcome
  attempts : List (Nat × Int)
  regs : List Int

/-- The `/api/write_temp_threshold` handler `set_temp_threshold`: validate the
AC index (`0 <= ac_index < NUM_AC_UNITS_CLIENT`) and the thresholds
(`0 <= high_temp <= 50 and 0 <= good_temp <= 50 and good_temp < high_temp`)
before any network call, then write the high-threshold register and, only if
that succeeded, the good-threshold register; a failed second write is reported
as failure with no rollback of the first.  `ok1`/`ok2` are the transport
outcomes of the two writes. -/
def set_temp_threshold (regs : List Int) (ac_index high_temp good_temp : Int)
    (ok1 ok2 : Bool) : ThresholdRun :=
  if ¬ (0 ≤ ac_index ∧ ac_index < (NUM_AC_UNITS_CLIENT : Int)) then
    ⟨.badIndex, [], regs⟩
  else if ¬ (0 ≤ high_temp ∧ high_temp ≤ 50 ∧ 0 ≤ good_temp ∧ good_temp ≤ 50 ∧
      good_temp < high_temp) then
    ⟨.badTemps, [], regs⟩
  else
    let i := ac_index.toNat
    let r1 := write_single_holding_register regs (addr_high_T i) high_temp ok1
    if r1.2 = false then
      ⟨.highWriteFailed, [(addr_high_T i, high_temp)], r1.1⟩
    else
      let r2 := write_single_holding_register r1.1 (addr_good_T i) good_temp ok2
      if r2.2 = false then
        ⟨.goodWriteFailed, [(addr_high_T i, high_temp), (addr_good_T i, good_temp)], r2.1⟩
      else
        ⟨.ok, [(addr_high_T i, high_temp), (addr_good_T i, good_temp)], r2.1⟩

/-- `process_hr_data` in `get_data`: keep the three 5-wide blocks of a 16-long
holding-register payload, otherwise fall back to the default vectors
`[15]*5, [27]*5, [20]*5`.  The Boolean records whether the defaults were used
(the code logs a warning in exactly that branch). -/
def process_hr_data (hr_data : List Int) : (List Int × List Int × List Int) × Bool :=
  if hr_data ≠ [] ∧ hr_data.length = 16 then
    ((hr_data.take NUM_AC_UNITS_CLIENT,
      (hr_data.drop NUM_AC_UNITS_CLIENT).take NUM_AC_UNITS_CLIENT,
      (hr_data.drop (NUM_AC_UNITS_CLIENT * 2)).take NUM_AC_UNITS_CLIENT), false)
  else
    ((List.replicate NUM_AC_UNITS_CLIENT 15,
      List.replicate NUM_AC_UNITS_CLIENT 27,
      List.replicate NUM_AC_UNITS_CLIENT 20), true)

/-- `process_di_data` in `get_data`: keep a 5-long discrete-input payload,
otherwise fall back to `[False]*5`; the Boolean records whether the defaults
were used. -/
def process_di_data (di_data : List Bool) : List Bool × Bool :=
  if di_data ≠ [] ∧ di_data.length = NUM_AC_UNITS_CLIENT then (di_data, false)
  else (List.replicate NUM_AC_UNITS_CLIENT false, true)

/-- One unit's slice of the `/api/data` response, together with the
defaults-used flags from `process_hr_data`/`process_di_data`. -/
structure UnitView where
  temperatures : List Int
  high_thresholds : List Int
  good_thresholds : List Int
  inputs : List Bool
  hr_defaulted : Bool
  di_defaulted : Bool

/-- Build one unit's view from its two processed reads. -/
def unitViewOf (hr_data : List Int) (di_data : List Bool) : UnitView :=
  { temperatures := (process_hr_data hr_data).1.1
    high_thresholds := (process_hr_data hr_data).1.2.1
    good_thresholds := (process_hr_data hr_data).1.2.2
    inputs := (process_di_data di_data).1
    hr_defaulted := (process_hr_data hr_data).2
    di_defaulted := (process_di_data di_data).2 }

/-- The `/api/data` handler `get_data`: four reads (unit 1 holding registers,
unit 1 discrete inputs, unit 2 holding registers, unit 2 discrete inputs),
each either failed (`none`, i.e. `read_registers` returned an error) or the
extracted payload.  If any read reported an error the handler returns the
HTTP 500 error response (`none`); otherwise it builds the two unit views. -/
def get_data (hr1 : Option (List Int)) (di1 : Option (List Bool))
    (hr2 : Option (List Int)) (di2 : Option (List Bool)) :
    Option (UnitView × UnitView) :=
  match hr1, di1, hr2, di2 with
  | some h1, some d1, some h2, some d2 =>
      some (unitViewOf h1 d1, unitViewOf h2 d2)
  | _, _, _, _ => none

/-! Section: Basic list lemmas -/

theorem getD_take_lt {α : Type} (l : List α) :
    ∀ (n i : Nat) (d : α), i < n → (l.take n).getD i d = l.getD i d := by
  induction l with
  | nil => intro n i d _; simp
  | cons a l ih =>
    intro n i d h
    cases n with
    | zero => omega
    | succ n =>
      cases i with
      | zero => simp
      | succ i => simpa using ih n i d (by omega)

theorem getD_drop_add {α : Type} (l : List α) :
    ∀ (n i : Nat) (d : α), (l.drop n).getD i d = l.getD (n + i) d := by
  induction l with
  | nil => intro n i d; simp
  | cons a l ih =>
    intro n i d
    cases n with
    | zero => simp
    | succ n =>
      rw [List.drop_succ_cons, ih n i d, Nat.succ_add, List.getD_cons_succ]

theorem getD_zipWith {α β γ : Type} (f : α → β → γ) :
    ∀ (as' : List α) (bs : List β) (i : Nat) (da : α) (db : β) (dc : γ),
      i < as'.length → i < bs.length →
      (List.zipWith f as' bs).getD i dc = f (as'.getD i da) (bs.getD i db) := by
  intro as'
  induction as' with
  | nil => intro bs i da db dc ha _; simp at ha
  | cons a as' ih =>
    intro bs i da db dc ha hb
    cases bs with
    | nil => simp at hb
    | cons b bs =>
      cases i with
      | zero => simp
      | succ i =>
        simpa using ih bs i da db dc (by simpa using ha) (by simpa using hb)

theorem getValues_all {α : Type} (l : List α) (n : Nat) (h : l.length = n) :
    getValues l 0 n = l := by
  subst h
  simp [getValues]

theorem setValuesBlock_all {α : Type} (l v : List α) (h : l.length ≤ v.length) :
    setValuesBlock l 0 v = v := by
  simp [setValuesBlock, List.drop_eq_nil_of_le h]

/-! Section: Lemmas about the control/simulation tick -/

theorem newCoilStatuses_length :
    ∀ (ts hs gs : List Int) (cs : List Bool),
      (newCoilStatuses ts hs gs cs).length =
        min (min ts.length hs.length) (min gs.length cs.length)
  | t :: ts, h :: hs, g :: gs, c :: cs => by
      simp only [newCoilStatuses, List.length_cons,
        newCoilStatuses_length ts hs gs cs]
      omega
  | [], hs, gs, cs => by simp [newCoilStatuses]
  | t :: ts, [], gs, cs => by simp [newCoilStatuses]
  | t :: ts, h :: hs, [], cs => by simp [newCoilStatuses]
  | t :: ts, h :: hs, g :: gs, [] => by simp [newCoilStatuses]

theorem newCoilStatuses_getD :
    ∀ (ts hs gs : List Int) (cs : List Bool) (i : Nat),
      i < ts.length → i < hs.length → i < gs.length → i < cs.length →
      (newCoilStatuses ts hs gs cs).getD i false =
        hysteresisCoil (ts.getD i 0) (hs.getD i 0) (gs.getD i 0) (cs.getD i false)
  | t :: ts, h :: hs, g :: gs, c :: cs, 0, _, _, _, _ => by
      simp [newCoilStatuses]
  | t :: ts, h :: hs, g :: gs, c :: cs, i + 1, h1, h2, h3, h4 => by
      simpa [newCoilStatuses] using
        newCoilStatuses_getD ts hs gs cs i (by simpa using h1) (by simpa using h2)
          (by simpa using h3) (by simpa using h4)
  | [], hs, gs, cs, i, h1, _, _, _ => by simp at h1
  | t :: ts, [], gs, cs, i, _, h2, _, _ => by simp at h2
  | t :: ts, h :: hs, [], cs, i, _, _, h3, _ => by simp at h3
  | t :: ts, h :: hs, g :: gs, [], i, _, _, _, h4 => by simp at h4

theorem server_temps_length (hr : List Int) (h : hr.length = 16) :
    (server_temps hr).length = 5 := by
  simp [server_temps, NUM_AC_UNITS, h]

theorem server_high_thresholds_length (hr : List Int) (h : hr.length = 16) :
    (server_high_thresholds hr).length = 5 := by
  simp [server_high_thresholds, NUM_AC_UNITS, h]

theorem server_good_thresholds_length (hr : List Int) (h : hr.length = 16) :
    (server_good_thresholds hr).length = 5 := by
  simp [server_good_thresholds, NUM_AC_UNITS, h]

theorem server_temps_getD (hr : List Int) (i : Nat) (hi : i < 5) :
    (server_temps hr).getD i 0 = hr.getD i 0 := by
  simpa [server_temps, NUM_AC_UNITS] using getD_take_lt hr 5 i 0 hi

theorem server_high_thresholds_getD (hr : List Int) (i : Nat) (hi : i < 5) :
    (server_high_thresholds hr).getD i 0 = hr.getD (5 + i) 0 := by
  simp only [server_high_thresholds, NUM_AC_UNITS]
  rw [getD_take_lt _ 5 i 0 hi, getD_drop_add]

theorem server_good_thresholds_getD (hr : List Int) (i : Nat) (hi : i < 5) :
    (server_good_thresholds hr).getD i 0 = hr.getD (10 + i) 0 := by
  simp only [server_good_thresholds, NUM_AC_UNITS]
  rw [getD_take_lt _ 5 i 0 hi, getD_drop_add]

theorem new_coil_statuses_of_length (hr : List Int) (co : List Bool)
    (hhr : hr.length = 16) (hco : co.length = 5) :
    (new_coil_statuses_of hr co).length = 5 := by
  simp [new_coil_statuses_of, newCoilStatuses_length,
    server_temps_length hr hhr, server_high_thresholds_length hr hhr,
    server_good_thresholds_length hr hhr, hco]

theorem simulated_temperatures_of_length (hr : List Int) (nc : List Bool)
    (hhr : hr.length = 16) (hnc : nc.length = 5) :
    (simulated_temperatures_of hr nc).length = 5 := by
  simp [simulated_temperatures_of, server_temps_length hr hhr, hnc]

/-- Under the expected block lengths the tick takes its closed form: the
guard passes, the coil block becomes exactly the new coil statuses, and the
holding registers become the written-back 16-long list. -/
theorem tick_eq_of_lengths (s : UnitState) (hhr : s.hr.length = 16)
    (hco : s.co.length = 5) :
    update_temperature_and_coils_tick s =
      { hr := simulated_temperatures_of s.hr (new_coil_statuses_of s.hr s.co)
            ++ server_high_thresholds s.hr ++ server_good_thresholds s.hr
            ++ [s.hr.getD 15 0]
        co := new_coil_statuses_of s.hr s.co
        di := s.di } := by
  unfold update_temperature_and_coils_tick
  rw [getValues_all s.hr 16 hhr]
  rw [getValues_all s.co NUM_AC_UNITS (by simpa [NUM_AC_UNITS] using hco)]
  rw [if_pos hhr]
  have hnc : (new_coil_statuses_of s.hr s.co).length = 5 :=
    new_coil_statuses_of_length s.hr s.co hhr hco
  have hsim : (simulated_temperatures_of s.hr (new_coil_statuses_of s.hr s.co)).length = 5 :=
    simulated_temperatures_of_length s.hr _ hhr hnc
  have hupd :
      (simulated_temperatures_of s.hr (new_coil_statuses_of s.hr s.co)
          ++ server_high_thresholds s.hr ++ server_good_thresholds s.hr
          ++ [s.hr.getD 15 0]).length = 16 := by
    simp [hsim, server_high_thresholds_length s.hr hhr,
      server_good_thresholds_length s.hr hhr]
  have h15 : NUM_AC_UNITS * 3 = 15 := by simp [NUM_AC_UNITS]
  rw [h15]
  show UnitState.mk
      (setValuesBlock s.hr 0
        (simulated_temperatures_of s.hr (new_coil_statuses_of s.hr s.co)
          ++ server_high_thresholds s.hr ++ server_good_thresholds s.hr
          ++ [s.hr.getD 15 0]))
      (setValuesBlock s.co 0 (new_coil_statuses_of s.hr s.co)) s.di = _
  rw [setValuesBlock_all s.hr _ (by omega), setValuesBlock_all s.co _ (by omega)]

theorem tick_lengths (s : UnitState) (hhr : s.hr.length = 16)
    (hco : s.co.length = 5) :
    (update_temperature_and_coils_tick s).hr.length = 16 ∧
    (update_temperature_and_coils_tick s).co.length = 5 := by
  rw [tick_eq_of_lengths s hhr hco]
  have hnc := new_coil_statuses_of_length s.hr s.co hhr hco
  constructor
  · simp [simulated_temperatures_of_length s.hr _ hhr hnc,
      server_high_thresholds_length s.hr hhr,
      server_good_thresholds_length s.hr hhr]
  · simpa using hnc

/-- Per-index form of the coil update of one tick. -/
theorem tick_co_getD (s : UnitState) (hhr : s.hr.length = 16)
    (hco : s.co.length = 5) (i : Nat) (hi : i < 5) :
    (update_temperature_and_coils_tick s).co.getD i false =
      hysteresisCoil (s.hr.getD i 0) (s.hr.getD (5 + i) 0)
        (s.hr.getD (10 + i) 0) (s.co.getD i false) := by
  rw [tick_eq_of_lengths s hhr hco]
  show (new_coil_statuses_of s.hr s.co).getD i false = _
  unfold new_coil_statuses_of
  rw [newCoilStatuses_getD _ _ _ _ i
    (by rw [server_temps_length s.hr hhr]; omega)
    (by rw [server_high_thresholds_length s.hr hhr]; omega)
    (by rw [server_good_thresholds_length s.hr hhr]; omega)
    (by omega)]
  rw [server_temps_getD s.hr i hi, server_high_thresholds_getD s.hr i hi,
    server_good_thresholds_getD s.hr i hi]

/-- Per-index form of the temperature update of one tick: the simulation rule
applied to the pre-tick temperature and the post-control coil of the same
tick. -/
theorem tick_hr_getD (s : UnitState) (hhr : s.hr.length = 16)
    (hco : s.co.length = 5) (i : Nat) (hi : i < 5) :
    (update_temperature_and_coils_tick s).hr.getD i 0 =
      simTemp ((update_temperature_and_coils_tick s).co.getD i false)
        (s.hr.getD i 0) := by
  rw [tick_eq_of_lengths s hhr hco]
  have hnc := new_coil_statuses_of_length s.hr s.co hhr hco
  have hsim := simulated_temperatures_of_length s.hr _ hhr hnc
  show (simulated_temperatures_of s.hr (new_coil_statuses_of s.hr s.co)
      ++ server_high_thresholds s.hr ++ server_good_thresholds s.hr
      ++ [s.hr.getD 15 0]).getD i 0 = _
  rw [List.getD_append _ _ _ _ (by
    simp only [List.length_append]
    omega)]
  rw [List.getD_append _ _ _ _ (by
    simp only [List.length_append]
    omega)]
  rw [List.getD_append _ _ _ _ (by omega)]
  unfold simulated_temperatures_of
  rw [getD_zipWith simTemp _ _ i false 0 0 (by omega)
    (by rw [server_temps_length s.hr hhr]; omega)]
  rw [server_temps_getD s.hr i hi]

theorem simTemp_range (c : Bool) (t : Int) (h7 : 7 ≤ t) (h30 : t ≤ 30) :
    7 ≤ simTemp c t ∧ simTemp c t ≤ 30 := by
  unfold simTemp
  split_ifs <;> omega

theorem simTemp_step (c : Bool) (t : Int) :
    t - 1 ≤ simTemp c t ∧ simTemp c t ≤ t + 1 := by
  unfold simTemp
  split_ifs <;> omega

theorem simTemp_true_low (t : Int) (h : t ≤ 7) : simTemp true t = t := by
  unfold simTemp
  rw [if_pos rfl, if_neg (by omega)]

theorem simTemp_false_high (t : Int) (h : 30 ≤ t) : simTemp false t = t := by
  unfold simTemp
  rw [if_neg (by simp), if_neg (by omega)]

theorem tick_preserves_range (s : UnitState) (hhr : s.hr.length = 16)
    (hco : s.co.length = 5)
    (hrange : ∀ i, i < 5 → 7 ≤ s.hr.getD i 0 ∧ s.hr.getD i 0 ≤ 30) :
    ∀ i, i < 5 →
      7 ≤ (update_temperature_and_coils_tick s).hr.getD i 0 ∧
      (update_temperature_and_coils_tick s).hr.getD i 0 ≤ 30 := by
  intro i hi
  rw [tick_hr_getD s hhr hco i hi]
  exact simTemp_range _ _ (hrange i hi).1 (hrange i hi).2

theorem append_blocks_getD (sim high good : List Int) (d : Int)
    (hs : sim.length = 5) (hh : high.length = 5) (hg : good.length = 5)
    (j : Nat) (h5 : 5 ≤ j) (h16 : j < 16) :
    (sim ++ high ++ good ++ [d]).getD j 0 =
      if j < 10 then high.getD (j - 5) 0
      else if j < 15 then good.getD (j - 10) 0
      else d := by
  have h1 : (sim ++ high).length = 10 := by simp [hs, hh]
  have h2 : (sim ++ high ++ good).length = 15 := by simp [hs, hh, hg]
  by_cases hj10 : j < 10
  · rw [if_pos hj10]
    rw [List.getD_append _ _ _ _ (by rw [h2]; omega)]
    rw [List.getD_append _ _ _ _ (by rw [h1]; omega)]
    rw [List.getD_append_right _ _ _ _ (by rw [hs]; omega)]
    rw [hs]
  · by_cases hj15 : j < 15
    · rw [if_neg hj10, if_pos hj15]
      rw [List.getD_append _ _ _ _ (by rw [h2]; omega)]
      rw [List.getD_append_right _ _ _ _ (by rw [h1]; omega)]
      rw [h1]
    · rw [if_neg hj10, if_neg hj15]
      rw [List.getD_append_right _ _ _ _ (by rw [h2]; omega)]
      rw [h2]
      have hz : j - 15 = 0 := by omega
      rw [hz]
      simp

/-! Section: Claims about the server's control loop -/

/-- Claim C1: for every unit state with the expected block lengths and every
AC index `i < NUM_AC_UNITS`, one control-loop tick applies the three-way
hysteresis rule to coil `i`: above the high threshold the coil becomes true,
below the good threshold it becomes false, and in the deadband it keeps its
pre-tick value. -/
theorem C1_three_way_hysteresis (s : UnitState) (hhr : s.hr.length = 16)
    (hco : s.co.length = 5) (i : Nat) (hi : i < NUM_AC_UNITS) :
    (update_temperature_and_coils_tick s).co.getD i false =
      (if s.hr.getD i 0 > s.hr.getD (5 + i) 0 then true
       else if s.hr.getD i 0 < s.hr.getD (10 + i) 0 then false
       else s.co.getD i false) := by
  have hi5 : i < 5 := hi
  rw [tick_co_getD s hhr hco i hi5]
  rfl

theorem C1_three_way_hysteresis_witness :
    (initState.hr.length = 16 ∧ initState.co.length = 5 ∧ 0 < NUM_AC_UNITS) ∧
    (update_temperature_and_coils_tick initState).co.getD 0 false =
      (if initState.hr.getD 0 0 > initState.hr.getD (5 + 0) 0 then true
       else if initState.hr.getD 0 0 < initState.hr.getD (10 + 0) 0 then false
       else initState.co.getD 0 false) :=
  ⟨⟨by decide, by decide, by decide⟩,
    C1_three_way_hysteresis initState (by decide) (by decide) 0 (by decide)⟩

/-- Claim C2: the temperature-simulation part of a tick uses the post-control
coil state committed earlier in the same tick: if the updated coil is on the
temperature is decremented by 1 (kept at values `≤ 7` instead of going below
the floor 7), otherwise incremented by 1 (kept at values `≥ 30` instead of
going above the ceiling 30). -/
theorem C2_sim_uses_post_control_coils (s : UnitState) (hhr : s.hr.length = 16)
    (hco : s.co.length = 5) (i : Nat) (hi : i < NUM_AC_UNITS) :
    (update_temperature_and_coils_tick s).hr.getD i 0 =
      (if (update_temperature_and_coils_tick s).co.getD i false then
        (if s.hr.getD i 0 > 7 then s.hr.getD i 0 - 1 else s.hr.getD i 0)
       else
        (if s.hr.getD i 0 < 30 then s.hr.getD i 0 + 1 else s.hr.getD i 0)) := by
  have hi5 : i < 5 := hi
  rw [tick_hr_getD s hhr hco i hi5]
  rfl

theorem C2_sim_uses_post_control_coils_witness :
    (initState.hr.length = 16 ∧ initState.co.length = 5 ∧ 1 < NUM_AC_UNITS) ∧
    (update_temperature_and_coils_tick initState).hr.getD 1 0 =
      (if (update_temperature_and_coils_tick initState).co.getD 1 false then
        (if initState.hr.getD 1 0 > 7 then initState.hr.getD 1 0 - 1
         else initState.hr.getD 1 0)
       else
        (if initState.hr.getD 1 0 < 30 then initState.hr.getD 1 0 + 1
         else initState.hr.getD 1 0)) :=
  ⟨⟨by decide, by decide, by decide⟩,
    C2_sim_uses_post_control_coils initState (by decide) (by decide) 1 (by decide)⟩

/-- Claim C3: from any state whose temperatures (including the extreme
boundary values) lie in `[7, 30]`, any number of control-loop ticks keeps
every temperature in `[7, 30]`: it is never driven below 7 nor above 30. -/
theorem C3_temperature_bounds (s : UnitState) (n : Nat)
    (hhr : s.hr.length = 16) (hco : s.co.length = 5)
    (hrange : ∀ i, i < NUM_AC_UNITS → 7 ≤ s.hr.getD i 0 ∧ s.hr.getD i 0 ≤ 30) :
    ∀ i, i < NUM_AC_UNITS →
      7 ≤ (tickN n s).hr.getD i 0 ∧ (tickN n s).hr.getD i 0 ≤ 30 := by
  induction n generalizing s with
  | zero => exact hrange
  | succ n ih =>
    have hl := tick_lengths s hhr hco
    intro i hi
    have hstep : ∀ i, i < NUM_AC_UNITS →
        7 ≤ (update_temperature_and_coils_tick s).hr.getD i 0 ∧
        (update_temperature_and_coils_tick s).hr.getD i 0 ≤ 30 :=
      fun i hi => tick_preserves_range s hhr hco (fun i hi => hrange i hi) i hi
    exact ih (update_temperature_and_coils_tick s) hl.1 hl.2 hstep i hi

theorem C3_temperature_bounds_witness :
    (extremeState.hr.length = 16 ∧ extremeState.co.length = 5 ∧
      (∀ i, i < NUM_AC_UNITS →
        7 ≤ extremeState.hr.getD i 0 ∧ extremeState.hr.getD i 0 ≤ 30)) ∧
    (∀ i, i < NUM_AC_UNITS →
      7 ≤ (tickN 1000 extremeState).hr.getD i 0 ∧
      (tickN 1000 extremeState).hr.getD i 0 ≤ 30) :=
  ⟨⟨by decide, by decide, by decide⟩,
    C3_temperature_bounds extremeState 1000 (by decide) (by decide) (by decide)⟩

/-- Claim C8: one mirror-loop tick copies the coil values verbatim into the
discrete inputs, leaving the coils untouched, so afterwards
`discreteInputs = coils` with no transformation. -/
theorem C8_mirror_copies_coils (s : UnitState) (hco : s.co.length = 5)
    (hdi : s.di.length = 5) :
    (update_discrete_inputs_tick s).di = s.co ∧
    (update_discrete_inputs_tick s).co = s.co := by
  constructor
  · show setValuesBlock s.di 0 (getValues s.co 0 NUM_AC_UNITS) = s.co
    rw [getValues_all s.co NUM_AC_UNITS (by rw [hco]; rfl)]
    exact setValuesBlock_all s.di s.co (by omega)
  · rfl

theorem C8_mirror_copies_coils_witness :
    (initState.co.length = 5 ∧ initState.di.length = 5) ∧
    ((update_discrete_inputs_tick initState).di = initState.co ∧
     (update_discrete_inputs_tick initState).co = initState.co) :=
  ⟨⟨by decide, by decide⟩,
    C8_mirror_copies_coils initState (by decide) (by decide)⟩

/-- Claim C9: one control-loop tick writes the high thresholds, the good
thresholds and the trailing dummy register back unchanged (registers 5..15 are
round-tripped verbatim), leaves the discrete inputs alone, and preserves the
block sizes — only the 5 temperature registers and the 5 coils may change. -/
theorem C9_thresholds_round_trip (s : UnitState) (hhr : s.hr.length = 16)
    (hco : s.co.length = 5) :
    (∀ j, 5 ≤ j → j < 16 →
      (update_temperature_and_coils_tick s).hr.getD j 0 = s.hr.getD j 0) ∧
    (update_temperature_and_coils_tick s).di = s.di ∧
    (update_temperature_and_coils_tick s).hr.length = 16 ∧
    (update_temperature_and_coils_tick s).co.length = 5 := by
  have hteq := tick_eq_of_lengths s hhr hco
  refine ⟨?_, by rw [hteq], (tick_lengths s hhr hco).1, (tick_lengths s hhr hco).2⟩
  intro j h5 h16
  rw [hteq]
  have hnc := new_coil_statuses_of_length s.hr s.co hhr hco
  show (simulated_temperatures_of s.hr (new_coil_statuses_of s.hr s.co)
      ++ server_high_thresholds s.hr ++ server_good_thresholds s.hr
      ++ [s.hr.getD 15 0]).getD j 0 = s.hr.getD j 0
  rw [append_blocks_getD _ _ _ _
    (simulated_temperatures_of_length s.hr _ hhr hnc)
    (server_high_thresholds_length s.hr hhr)
    (server_good_thresholds_length s.hr hhr) j h5 h16]
  by_cases hj10 : j < 10
  · rw [if_pos hj10, server_high_thresholds_getD s.hr (j - 5) (by omega)]
    have hjj : 5 + (j - 5) = j := by omega
    rw [hjj]
  · by_cases hj15 : j < 15
    · rw [if_neg hj10, if_pos hj15,
        server_good_thresholds_getD s.hr (j - 10) (by omega)]
      have hjj : 10 + (j - 10) = j := by omega
      rw [hjj]
    · rw [if_neg hj10, if_neg hj15]
      have hjj : j = 15 := by omega
      rw [hjj]

theorem C9_thresholds_round_trip_witness :
    (initState.hr.length = 16 ∧ initState.co.length = 5) ∧
    ((∀ j, 5 ≤ j → j < 16 →
      (update_temperature_and_coils_tick initState).hr.getD j 0 =
        initState.hr.getD j 0) ∧
    (update_temperature_and_coils_tick initState).di = initState.di ∧
    (update_temperature_and_coils_tick initState).hr.length = 16 ∧
    (update_temperature_and_coils_tick initState).co.length = 5) :=
  ⟨⟨by decide, by decide⟩,
    C9_thresholds_round_trip initState (by decide) (by decide)⟩

/-- Claim C10: per AC index, one tick changes the temperature by at most 1 and
preserves `7 ≤ temperature ≤ 30`; a temperature already outside `[7, 30]` is
not clamped back: with the (post-control) coil on, a temperature `≤ 7` is left
exactly unchanged, and with the coil off, a temperature `≥ 30` is left exactly
unchanged. -/
theorem C10_step_bound_no_reclamp (s : UnitState) (hhr : s.hr.length = 16)
    (hco : s.co.length = 5) (i : Nat) (hi : i < NUM_AC_UNITS) :
    (s.hr.getD i 0 - 1 ≤ (update_temperature_and_coils_tick s).hr.getD i 0 ∧
      (update_temperature_and_coils_tick s).hr.getD i 0 ≤ s.hr.getD i 0 + 1) ∧
    (7 ≤ s.hr.getD i 0 ∧ s.hr.getD i 0 ≤ 30 →
      7 ≤ (update_temperature_and_coils_tick s).hr.getD i 0 ∧
      (update_temperature_and_coils_tick s).hr.getD i 0 ≤ 30) ∧
    ((update_temperature_and_coils_tick s).co.getD i false = true →
      s.hr.getD i 0 ≤ 7 →
      (update_temperature_and_coils_tick s).hr.getD i 0 = s.hr.getD i 0) ∧
    ((update_temperature_and_coils_tick s).co.getD i false = false →
      30 ≤ s.hr.getD i 0 →
      (update_temperature_and_coils_tick s).hr.getD i 0 = s.hr.getD i 0) := by
  have hi5 : i < 5 := hi
  rw [tick_hr_getD s hhr hco i hi5]
  refine ⟨simTemp_step _ _, fun h => simTemp_range _ _ h.1 h.2, ?_, ?_⟩
  · intro hc hle
    rw [hc]
    exact simTemp_true_low _ hle
  · intro hc hge
    rw [hc]
    exact simTemp_false_high _ hge

theorem C10_step_bound_no_reclamp_witness :
    (extremeState.hr.length = 16 ∧ extremeState.co.length = 5 ∧
      2 < NUM_AC_UNITS) ∧
    ((extremeState.hr.getD 2 0 - 1 ≤
        (update_temperature_and_coils_tick extremeState).hr.getD 2 0 ∧
      (update_temperature_and_coils_tick extremeState).hr.getD 2 0 ≤
        extremeState.hr.getD 2 0 + 1) ∧
    (7 ≤ extremeState.hr.getD 2 0 ∧ extremeState.hr.getD 2 0 ≤ 30 →
      7 ≤ (update_temperature_and_coils_tick extremeState).hr.getD 2 0 ∧
      (update_temperature_and_coils_tick extremeState).hr.getD 2 0 ≤ 30) ∧
    ((update_temperature_and_coils_tick extremeState).co.getD 2 false = true →
      extremeState.hr.getD 2 0 ≤ 7 →
      (update_temperature_and_coils_tick extremeState).hr.getD 2 0 =
        extremeState.hr.getD 2 0) ∧
    ((update_temperature_and_coils_tick extremeState).co.getD 2 false = false →
      30 ≤ extremeState.hr.getD 2 0 →
      (update_temperature_and_coils_tick extremeState).hr.getD 2 0 =
        extremeState.hr.getD 2 0)) :=
  ⟨⟨by decide, by decide, by decide⟩,
    C10_step_bound_no_reclamp extremeState (by decide) (by decide) 2 (by decide)⟩

/-! Section: Claims about the client -/

theorem getD_set_self {α : Type} (l : List α) (n : Nat) (a d : α)
    (h : n < l.length) :
    (l.set n a).getD n d = a := by
  rw [List.getD_eq_getElem _ _ (by simpa using h)]
  simp [List.getElem_set]

/-- Claim C7: the threshold-write handler validates the AC index, the two
threshold bounds and their ordering before any network call; a request
violating any of these is rejected locally (bad-index or bad-temps error) with
no write attempt sent and the device registers untouched, whatever the
transport would have answered. -/
theorem C7_local_validation (regs : List Int) (ac_index high_temp good_temp : Int)
    (ok1 ok2 : Bool)
    (hbad : ¬ (0 ≤ ac_index ∧ ac_index < (NUM_AC_UNITS_CLIENT : Int)) ∨
      ¬ (0 ≤ high_temp ∧ high_temp ≤ 50 ∧ 0 ≤ good_temp ∧ good_temp ≤ 50 ∧
          good_temp < high_temp)) :
    (set_temp_threshold regs ac_index high_temp good_temp ok1 ok2).attempts = [] ∧
    (set_temp_threshold regs ac_index high_temp good_temp ok1 ok2).regs = regs ∧
    ((set_temp_threshold regs ac_index high_temp good_temp ok1 ok2).outcome =
        ThresholdOutcome.badIndex ∨
      (set_temp_threshold regs ac_index high_temp good_temp ok1 ok2).outcome =
        ThresholdOutcome.badTemps) := by
  unfold set_temp_threshold
  by_cases h1 : 0 ≤ ac_index ∧ ac_index < (NUM_AC_UNITS_CLIENT : Int)
  · have h2 := hbad.resolve_left (not_not_intro h1)
    rw [if_neg (not_not_intro h1), if_pos h2]
    exact ⟨rfl, rfl, Or.inr rfl⟩
  · rw [if_pos h1]
    exact ⟨rfl, rfl, Or.inl rfl⟩

theorem C7_local_validation_witness :
    (¬ (0 ≤ (0 : Int) ∧ (0 : Int) < (NUM_AC_UNITS_CLIENT : Int)) ∨
      ¬ (0 ≤ (20 : Int) ∧ (20 : Int) ≤ 50 ∧ 0 ≤ (25 : Int) ∧ (25 : Int) ≤ 50 ∧
          (25 : Int) < (20 : Int))) ∧
    ((set_temp_threshold db1_hr_initial_values 0 20 25 true true).attempts = [] ∧
     (set_temp_threshold db1_hr_initial_values 0 20 25 true true).regs =
        db1_hr_initial_values ∧
     ((set_temp_threshold db1_hr_initial_values 0 20 25 true true).outcome =
          ThresholdOutcome.badIndex ∨
       (set_temp_threshold db1_hr_initial_values 0 20 25 true true).outcome =
          ThresholdOutcome.badTemps)) :=
  ⟨by decide,
    C7_local_validation db1_hr_initial_values 0 20 25 true true (by decide)⟩

/-- Claim C4: for valid parameters the handler writes the high-threshold
register first; if that write fails it reports failure without attempting the
good-threshold write and leaves the device unchanged, and if the first write
succeeds but the second fails it reports failure while the first write's
effect stays in place — no rollback, so the pair is non-atomic. -/
theorem C4_two_step_nonatomic (regs : List Int) (ac_index high_temp good_temp : Int)
    (hidx : 0 ≤ ac_index ∧ ac_index < (NUM_AC_UNITS_CLIENT : Int))
    (htemps : 0 ≤ high_temp ∧ high_temp ≤ 50 ∧ 0 ≤ good_temp ∧ good_temp ≤ 50 ∧
      good_temp < high_temp) :
    ((set_temp_threshold regs ac_index high_temp good_temp false true).outcome =
        ThresholdOutcome.highWriteFailed ∧
     (set_temp_threshold regs ac_index high_temp good_temp false true).attempts =
        [(addr_high_T ac_index.toNat, high_temp)] ∧
     (set_temp_threshold regs ac_index high_temp good_temp false true).regs = regs) ∧
    ((set_temp_threshold regs ac_index high_temp good_temp true false).outcome =
        ThresholdOutcome.goodWriteFailed ∧
     (set_temp_threshold regs ac_index high_temp good_temp true false).attempts =
        [(addr_high_T ac_index.toNat, high_temp),
         (addr_good_T ac_index.toNat, good_temp)] ∧
     (set_temp_threshold regs ac_index high_temp good_temp true false).regs =
        regs.set (addr_high_T ac_index.toNat) high_temp) := by
  unfold set_temp_threshold write_single_holding_register
  simp only [if_neg (not_not_intro hidx), if_neg (not_not_intro htemps)]
  exact ⟨⟨rfl, rfl, rfl⟩, ⟨rfl, rfl, rfl⟩⟩

theorem C4_two_step_nonatomic_witness :
    ((0 ≤ (2 : Int) ∧ (2 : Int) < (NUM_AC_UNITS_CLIENT : Int)) ∧
      (0 ≤ (30 : Int) ∧ (30 : Int) ≤ 50 ∧ 0 ≤ (18 : Int) ∧ (18 : Int) ≤ 50 ∧
        (18 : Int) < (30 : Int))) ∧
    (((set_temp_threshold db1_hr_initial_values 2 30 18 false true).outcome =
        ThresholdOutcome.highWriteFailed ∧
      (set_temp_threshold db1_hr_initial_values 2 30 18 false true).attempts =
        [(addr_high_T (2 : Int).toNat, 30)] ∧
      (set_temp_threshold db1_hr_initial_values 2 30 18 false true).regs =
        db1_hr_initial_values) ∧
    ((set_temp_threshold db1_hr_initial_values 2 30 18 true false).outcome =
        ThresholdOutcome.goodWriteFailed ∧
      (set_temp_threshold db1_hr_initial_values 2 30 18 true false).attempts =
        [(addr_high_T (2 : Int).toNat, 30), (addr_good_T (2 : Int).toNat, 18)] ∧
      (set_temp_threshold db1_hr_initial_values 2 30 18 true false).regs =
        db1_hr_initial_values.set (addr_high_T (2 : Int).toNat) 30)) :=
  ⟨⟨by decide, by decide⟩,
    C4_two_step_nonatomic db1_hr_initial_values 2 30 18 (by decide) (by decide)⟩

/-- Claim C6: client and server agree on the address map.  The client computes
coil address `i`, high-threshold address `M + i` and good-threshold address
`2M + i` with `M = NUM_AC_UNITS_CLIENT = NUM_AC_UNITS = 5`; the server lays
its 16 holding registers out as the contiguous blocks
`[temperatures | highThreshold | goodThreshold | dummy]` from address 0, so
reading or writing through the client-computed address reaches exactly the
server's block entry `i`. -/
theorem C6_address_contract (hr : List Int) (h16 : hr.length = 16) (i : Nat)
    (hi : i < NUM_AC_UNITS) (v w : Int) :
    NUM_AC_UNITS_CLIENT = NUM_AC_UNITS ∧
    addr_coil i = i ∧
    (server_temps hr).getD i 0 = hr.getD i 0 ∧
    (server_high_thresholds hr).getD i 0 = hr.getD (addr_high_T i) 0 ∧
    (server_good_thresholds hr).getD i 0 = hr.getD (addr_good_T i) 0 ∧
    (server_high_thresholds (hr.set (addr_high_T i) v)).getD i 0 = v ∧
    (server_good_thresholds (hr.set (addr_good_T i) w)).getD i 0 = w ∧
    db1_hr_initial_values.getD (addr_high_T i) 0 = 27 ∧
    db1_hr_initial_values.getD (addr_good_T i) 0 = 20 := by
  have hi5 : i < 5 := hi
  refine ⟨rfl, rfl, server_temps_getD hr i hi5,
    server_high_thresholds_getD hr i hi5,
    server_good_thresholds_getD hr i hi5, ?_, ?_, ?_, ?_⟩
  · rw [server_high_thresholds_getD (hr.set (addr_high_T i) v) i hi5]
    exact getD_set_self hr (5 + i) v 0 (by rw [h16]; omega)
  · rw [server_good_thresholds_getD (hr.set (addr_good_T i) w) i hi5]
    exact getD_set_self hr (10 + i) w 0 (by rw [h16]; omega)
  · interval_cases i <;> decide
  · interval_cases i <;> decide

theorem C6_address_contract_witness :
    (db1_hr_initial_values.length = 16 ∧ 2 < NUM_AC_UNITS) ∧
    (NUM_AC_UNITS_CLIENT = NUM_AC_UNITS ∧
    addr_coil 2 = 2 ∧
    (server_temps db1_hr_initial_values).getD 2 0 =
      db1_hr_initial_values.getD 2 0 ∧
    (server_high_thresholds db1_hr_initial_values).getD 2 0 =
      db1_hr_initial_values.getD (addr_high_T 2) 0 ∧
    (server_good_thresholds db1_hr_initial_values).getD 2 0 =
      db1_hr_initial_values.getD (addr_good_T 2) 0 ∧
    (server_high_thresholds (db1_hr_initial_values.set (addr_high_T 2) 30)).getD 2 0 = 30 ∧
    (server_good_thresholds (db1_hr_initial_values.set (addr_good_T 2) 18)).getD 2 0 = 18 ∧
    db1_hr_initial_values.getD (addr_high_T 2) 0 = 27 ∧
    db1_hr_initial_values.getD (addr_good_T 2) 0 = 20) :=
  ⟨⟨by decide, by decide⟩,
    C6_address_contract db1_hr_initial_values (by decide) 2 (by decide) 30 18⟩

/-- Claim C5 counterexample: when the unit-1 holding-register read fails with
a communication fault (`read_registers` returned an error), `get_data` does
not substitute the documented defaults for that unit — it returns the error
response (HTTP 500), i.e. no response data at all. -/
theorem C5_counterexample_comm_fault :
    (get_data none (some (List.replicate 5 false)) (some db1_hr_initial_values)
      (some (List.replicate 5 false))).isSome = false := rfl

/-- Claim C5 as amended: the default vector (temperature=15, high=27, good=20,
status=false) is substituted, and flagged as defaulted, only when a per-unit
read nominally succeeds but its payload length does not match the expected
fixed width (16 holding registers; 5 discrete inputs); a read that fails with
a communication fault instead aborts the whole aggregation with an error
response. -/
theorem C5_defaults_on_length_mismatch (h1 h2 : List Int) (d1 d2 : List Bool)
    (hh : h1.length ≠ 16) (hd : d1.length ≠ 5) :
    ∃ v2, get_data (some h1) (some d1) (some h2) (some d2) =
      some ({ temperatures := List.replicate 5 15
              high_thresholds := List.replicate 5 27
              good_thresholds := List.replicate 5 20
              inputs := List.replicate 5 false
              hr_defaulted := true
              di_defaulted := true }, v2) := by
  refine ⟨unitViewOf h2 d2, ?_⟩
  show some (unitViewOf h1 d1, unitViewOf h2 d2) = _
  have hv : unitViewOf h1 d1 =
      { temperatures := List.replicate 5 15
        high_thresholds := List.replicate 5 27
        good_thresholds := List.replicate 5 20
        inputs := List.replicate 5 false
        hr_defaulted := true
        di_defaulted := true } := by
    unfold unitViewOf process_hr_data process_di_data
    rw [if_neg (fun hc => hh hc.2), if_neg (fun hc => hd hc.2)]
    rfl
  rw [hv]

theorem C5_defaults_on_length_mismatch_witness :
    (([] : List Int).length ≠ 16 ∧ ([true] : List Bool).length ≠ 5) ∧
    (∃ v2, get_data (some ([] : List Int)) (some ([true] : List Bool))
        (some db1_hr_initial_values) (some (List.replicate 5 false)) =
      some ({ temperatures := List.replicate 5 15
              high_thresholds := List.replicate 5 27
              good_thresholds := List.replicate 5 20
              inputs := List.replicate 5 false
              hr_defaulted := true
              di_defaulted := true }, v2)) :=
  ⟨⟨by decide, by decide⟩,
    C5_defaults_on_length_mismatch [] db1_hr_initial_values [true]
      (List.replicate 5 false) (by decide) (by decide)⟩

end PymodbusTest
